import Mathlib

/-!
Verification of the Novi content-aggregation pipeline.

This file shallowly embeds the parts of the repository that the checked
properties concern:

* the persisted schema declared in `src/database/schema.ts` (tables,
  primary keys, unique constraints, plain indexes);
* the YouTube agent (`src/agents/youtube-agent/index.ts`): the monitoring
  dedup loop `handleMonitoring`, the summarization handler
  `handleSummarization`, `parseDuration`, `formatDuration`,
  `extractVideoIdFromUrl`;
* the RSS agent monitoring loop, `extractContent` and `stripHtml`;
* the orchestrator monitoring cycle (`handleMonitoring` of the
  content-orchestrator agent);
* `StorageManager.storeSummary` / `storeSummaryMultiple` of the storage
  integration layer.

Database tables are modelled as in-memory lists of rows, and each external
effect (YouTube fetch, transcript fetch, LLM oracle plus JSON parse,
provider document creation, sub-agent invocation) is a parameter of the
embedded function, so the handlers become pure state-passing functions.
Timestamps (`Date.now()`) are abstracted to a `Nat` clock threaded through
the loops; they only feed generated ids.
-/

namespace Novi

/-! ## Persisted schema (`src/database/schema.ts`)

A table schema records its name, primary-key columns, the column lists of
declared UNIQUE constraints (drizzle `.unique()` / `uniqueIndex`), and the
declared non-unique indexes (drizzle `index(...)`) as (index name, columns).
-/

structure TableSchema where
  name : String
  primaryKey : List String
  uniqueColumns : List (List String)
  indexes : List (String × List String)
  deriving DecidableEq, Repr

/-- `users` table: `email` carries `.notNull().unique()`. -/
def usersTable : TableSchema :=
  { name := "users"
    primaryKey := ["id"]
    uniqueColumns := [["email"]]
    indexes := [("email_idx", ["email"])] }

/-- `content_sources` table. -/
def contentSourcesTable : TableSchema :=
  { name := "content_sources"
    primaryKey := ["id"]
    uniqueColumns := []
    indexes := [("user_idx", ["user_id"]), ("type_idx", ["type"])] }

/-- `content_items` table: only plain `index(...)` declarations, no
`.unique()` and no `uniqueIndex` anywhere in its definition. -/
def contentItemsTable : TableSchema :=
  { name := "content_items"
    primaryKey := ["id"]
    uniqueColumns := []
    indexes := [("source_idx", ["source_id"]), ("published_idx", ["published_at"]),
                ("type_idx", ["type"])] }

/-- `summaries` table: only plain `index(...)` declarations. -/
def summariesTable : TableSchema :=
  { name := "summaries"
    primaryKey := ["id"]
    uniqueColumns := []
    indexes := [("content_idx", ["content_item_id"]), ("user_idx", ["user_id"]),
                ("created_idx", ["created_at"])] }

/-- `storage_locations` table. -/
def storageLocationsTable : TableSchema :=
  { name := "storage_locations"
    primaryKey := ["id"]
    uniqueColumns := []
    indexes := [("summary_idx", ["summary_id"]), ("provider_idx", ["provider"])] }

/-! ## JavaScript string primitives used by the agents -/

/-- `s.slice(a, b)` for non-negative `a ≤ b` (the only shape used by the
agents, `transcript.slice(0, 8000)`): the substring from index `a` up to
but excluding index `b`, clamped to the string length. -/
def jsSliceStr (s : String) (a b : Nat) : String :=
  String.mk ((s.data.drop a).take (b - a))

/-- Decimal digits to a number, as `parseInt` does on an all-digit string. -/
def digitsToNat (l : List Char) : Nat :=
  l.foldl (fun acc c => acc * 10 + (c.toNat - 48)) 0

/-- One optional regex group `(?:(\d+)X)?` of the duration regex: take the
maximal digit run; if it is nonempty and immediately followed by the marker
character, the group matches (value and rest-of-input after the marker),
otherwise the group is skipped and contributes `0` (`match[i] || '0'`).
Backtracking to a shorter digit run can never help, because the shorter run
would be followed by a digit, not the marker. -/
def tryGroup (marker : Char) (l : List Char) : Nat × List Char :=
  let p := l.span (fun c => c.isDigit)
  match p.2 with
  | [] => (0, l)
  | r :: rs => if p.1 ≠ [] ∧ r = marker then (digitsToNat p.1, rs) else (0, l)

/-- Leftmost occurrence of the literal `PT` (the mandatory prefix of the
regex `PT(?:(\d+)H)?(?:(\d+)M)?(?:(\d+)S)?`); returns the suffix after it.
Since every other part of the regex is optional, the regex matches the
input exactly when `PT` occurs in it, and it matches at the leftmost
occurrence. -/
def findPT : List Char → Option (List Char)
  | [] => none
  | 'P' :: 'T' :: rest => some rest
  | _ :: rest => findPT rest

/-- `parseDuration` of the YouTube agent: parse the ISO-8601-subset
duration (`PT4M13S` style) into whole seconds; a non-matching string
yields 0, and each absent group defaults to 0. -/
def parseDuration (duration : String) : Nat :=
  match findPT duration.data with
  | none => 0
  | some rest =>
    let rh := tryGroup 'H' rest
    let rm := tryGroup 'M' rh.2
    let rs := tryGroup 'S' rm.2
    rh.1 * 3600 + rm.1 * 60 + rs.1

/-- `formatDuration` of the YouTube agent (`padStart(2, '0')` on minutes
and seconds). -/
def padTwo (n : Nat) : String :=
  if n < 10 then "0" ++ toString n else toString n

/-- `formatDuration(seconds)`: `h:mm:ss` when hours are present, else
`m:ss`. -/
def formatDuration (seconds : Nat) : String :=
  let hours := seconds / 3600
  let minutes := (seconds % 3600) / 60
  let secs := seconds % 60
  if hours > 0 then
    toString hours ++ ":" ++ padTwo minutes ++ ":" ++ padTwo secs
  else
    toString minutes ++ ":" ++ padTwo secs

/-- `html.replace(/<[^>]*>/g, '')` as a scanner: outside a tag, a `<`
starts buffering; inside, a `>` discards the whole buffered run (one regex
match, since `[^>]*` can only stop at the first `>`); if the input ends
with the buffer open, no match started at that `<`, so the buffered
characters are emitted unchanged. -/
def removeTagsAux : List Char → Option (List Char) → List Char
  | [], none => []
  | [], some buf => buf.reverse
  | c :: cs, none =>
    if c = '<' then removeTagsAux cs (some ['<']) else c :: removeTagsAux cs none
  | c :: cs, some buf =>
    if c = '>' then removeTagsAux cs none else removeTagsAux cs (some (c :: buf))

/-- Tag removal pass of `stripHtml`. -/
def removeTags (l : List Char) : List Char :=
  removeTagsAux l none

/-- `str.replace(/lit/g, rep)` for a literal nonempty pattern: leftmost
non-overlapping matches, replacement text not rescanned. The fuel is the
input length; each step consumes at least one input character, so
`l.length` fuel always suffices. -/
def replaceAllAux (p r : List Char) : Nat → List Char → List Char
  | 0, l => l
  | _ + 1, [] => []
  | fuel + 1, c :: cs =>
    if p.isPrefixOf (c :: cs) then
      r ++ replaceAllAux p r fuel (cs.drop (p.length - 1))
    else
      c :: replaceAllAux p r fuel cs

/-- Global literal replacement. -/
def replaceAll (p r l : List Char) : List Char :=
  replaceAllAux p r l.length l

/-- The whitespace set of JavaScript `trim` restricted to ASCII (the only
characters the pipeline meets). -/
def isJsSpace (c : Char) : Bool :=
  c = ' ' ∨ c = '\t' ∨ c = '\n' ∨ c = '\r' ∨ c = '\x0b' ∨ c = '\x0c'

/-- `s.trim()`. -/
def jsTrim (l : List Char) : List Char :=
  ((l.dropWhile isJsSpace).reverse.dropWhile isJsSpace).reverse

/-- `stripHtml` of the RSS agent: strip tags, then decode the five named
entities in the order of the source (`nbsp`, `amp`, `lt`, `gt`, `quot`),
then trim. -/
def stripHtml (html : String) : String :=
  String.mk (jsTrim
    (replaceAll "&quot;".data "\"".data
      (replaceAll "&gt;".data ">".data
        (replaceAll "&lt;".data "<".data
          (replaceAll "&amp;".data "&".data
            (replaceAll "&nbsp;".data " ".data
              (removeTags html.data)))))))

/-! ## Rows of the in-memory store -/

/-- The `metadata` JSON column of a content item, with the fields the two
agents write (`duration`/`thumbnailUrl` only by the YouTube agent). -/
structure ItemMetadata where
  author : String
  publishedAt : String
  duration : Option Nat
  thumbnailUrl : Option String
  tags : List String
  deriving DecidableEq, Repr

/-- A `content_items` row. Nullable text columns are modelled as `String`
with `""` for NULL, matching the JavaScript truthiness tests the agents
apply to them. -/
structure ContentItemRow where
  id : String
  sourceId : String
  type : String
  title : String
  url : String
  content : String
  metadata : ItemMetadata
  deriving DecidableEq, Repr

/-- A `summaries` row. -/
structure SummaryRow where
  id : String
  contentItemId : String
  userId : String
  summary : String
  keyPoints : List String
  sentiment : String
  topics : List String
  aiModel : String
  confidence : Int
  deriving DecidableEq, Repr

/-- The structured object the summarization oracle must return
(`{summary, keyPoints, topics, sentiment, confidence}`). -/
structure SummaryData where
  summary : String
  keyPoints : List String
  topics : List String
  sentiment : String
  confidence : Int
  deriving DecidableEq, Repr

/-! ## YouTube agent: monitoring (`handleMonitoring`, the dedup loop) -/

/-- A recent-videos entry as the YouTube fetch returns it. -/
structure YouTubeVideo where
  id : String
  title : String
  channelTitle : String
  publishedAt : String
  duration : String
  transcript : Option String
  thumbnailUrl : String
  deriving DecidableEq, Repr

/-- The canonical locator the agent stores and dedups on. -/
def videoUrl (v : YouTubeVideo) : String :=
  "https://www.youtube.com/watch?v=" ++ v.id

/-- The existence check issued before every insert:
`select … where sourceId = sid and url = u limit 1` is nonempty. -/
def existsItem (items : List ContentItemRow) (sid u : String) : Bool :=
  items.any (fun it => it.sourceId == sid && it.url == u)

/-- Number of rows with a given (sourceId, url) dedup key. -/
def countKey (items : List ContentItemRow) (sid u : String) : Nat :=
  items.countP (fun it => it.sourceId == sid && it.url == u)

/-- The row the YouTube agent inserts for a new video
(`id = video_${video.id}_${Date.now()}` with the clock abstracted to
`now`). -/
def mkVideoItem (sid : String) (v : YouTubeVideo) (now : Nat) : ContentItemRow :=
  { id := "video_" ++ v.id ++ "_" ++ toString now
    sourceId := sid
    type := "video"
    title := v.title
    url := videoUrl v
    content := v.transcript.getD ""
    metadata :=
      { author := v.channelTitle
        publishedAt := v.publishedAt
        duration := some (parseDuration v.duration)
        thumbnailUrl := some v.thumbnailUrl
        tags := [] } }

/-- The `for (const video of videos)` loop of the YouTube agent's
`handleMonitoring`: per candidate, an existence check on the
(sourceId, url) key; on miss, insert and count (`newItems++`); on hit,
silent skip. Returns the updated table and `newItems`. The optional
Supabase mirror write is an external side channel and does not touch the
primary table. -/
def monitorVideos (sid : String) :
    List YouTubeVideo → List ContentItemRow → Nat → List ContentItemRow × Nat
  | [], items, _ => (items, 0)
  | v :: vs, items, now =>
    if existsItem items sid (videoUrl v) then
      monitorVideos sid vs items (now + 1)
    else
      let r := monitorVideos sid vs (items ++ [mkVideoItem sid v now]) (now + 1)
      (r.1, r.2 + 1)

/-- The per-source monitoring response body of the YouTube agent:
`videosChecked = videos.length`, `newItems` from the loop. -/
structure MonitorData where
  videosChecked : Nat
  newItems : Nat
  deriving DecidableEq, Repr

/-- Response data of a successful YouTube `monitor` action. -/
def monitorResult (sid : String) (videos : List YouTubeVideo)
    (items : List ContentItemRow) (now : Nat) :
    MonitorData × List ContentItemRow :=
  let r := monitorVideos sid videos items now
  ({ videosChecked := videos.length, newItems := r.2 }, r.1)

/-! ## RSS agent: monitoring loop, content extraction, `stripHtml` user -/

/-- A parsed feed entry, with the fields the RSS agent reads. `none`
models an absent field; JavaScript truthiness also treats `""` as
absent. -/
structure FeedItem where
  title : Option String
  link : Option String
  contentEncoded : Option String
  content : Option String
  description : Option String
  summary : Option String
  contentSnippet : Option String
  creator : Option String
  dcCreator : Option String
  pubDate : Option String
  isoDate : Option String
  categories : List String
  deriving DecidableEq, Repr

/-- JavaScript truthiness of an optional string field. -/
def truthyS : Option String → Bool
  | none => false
  | some s => s ≠ ""

/-- `a || b` on an optional string against a default. -/
def jsOrS (a : Option String) (b : String) : String :=
  match a with
  | some s => if s = "" then b else s
  | none => b

/-- `extractContent(item)`: first truthy field in the fixed preference
order `content:encoded`, `content`, `description`, `summary`,
`contentSnippet`, stripped of HTML; `''` when none is truthy. -/
def extractContent (it : FeedItem) : String :=
  if truthyS it.contentEncoded then stripHtml (it.contentEncoded.getD "")
  else if truthyS it.content then stripHtml (it.content.getD "")
  else if truthyS it.description then stripHtml (it.description.getD "")
  else if truthyS it.summary then stripHtml (it.summary.getD "")
  else if truthyS it.contentSnippet then stripHtml (it.contentSnippet.getD "")
  else ""

/-- The row the RSS agent inserts for a new article. The random part of
`article_${generateId()}_${Date.now()}` and the wall-clock ISO strings are
abstracted through the `now` counter. -/
def mkArticleItem (sid : String) (it : FeedItem) (now : Nat) : ContentItemRow :=
  { id := "article_" ++ toString now
    sourceId := sid
    type := "article"
    title := it.title.getD "Untitled"
    url := it.link.getD ""
    content := extractContent it
    metadata :=
      { author := jsOrS it.creator (jsOrS it.dcCreator "Unknown")
        publishedAt := jsOrS it.pubDate (jsOrS it.isoDate (toString now))
        duration := none
        thumbnailUrl := none
        tags := it.categories } }

/-- The `for (const item of feed.items)` loop of the RSS agent's
`handleMonitoring`: the existence check runs on `(sourceId, item.link
|| '')`, and the insert is guarded by `existing.length === 0 &&
item.link`, so an item with a missing or empty link is never inserted. -/
def monitorFeedItems (sid : String) :
    List FeedItem → List ContentItemRow → Nat → List ContentItemRow × Nat
  | [], items, _ => (items, 0)
  | it :: rest, items, now =>
    if existsItem items sid (it.link.getD "") = false ∧ truthyS it.link then
      let r := monitorFeedItems sid rest (items ++ [mkArticleItem sid it now]) (now + 1)
      (r.1, r.2 + 1)
    else
      monitorFeedItems sid rest items (now + 1)

/-- The per-source monitoring response body of the RSS agent:
`articlesChecked = feed.items.length` (every feed entry counts, inserted
or skipped), `newItems` from the loop. -/
structure RssMonitorData where
  articlesChecked : Nat
  newItems : Nat
  deriving DecidableEq, Repr

/-- Response data of a successful RSS `monitor` action. -/
def rssMonitorResult (sid : String) (feedItems : List FeedItem)
    (items : List ContentItemRow) (now : Nat) :
    RssMonitorData × List ContentItemRow :=
  let r := monitorFeedItems sid feedItems items now
  ({ articlesChecked := feedItems.length, newItems := r.2 }, r.1)

/-! ## YouTube agent: summarization (`handleSummarization`) -/

/-- Strip a literal from the front of the input if it is a prefix. -/
def dropLit (pat l : List Char) : Option (List Char) :=
  if pat.isPrefixOf l then some (l.drop pat.length) else none

/-- Character class `[a-zA-Z0-9_-]` of the video-id regex. -/
def isIdChar (c : Char) : Bool :=
  c.isAlphanum || c = '_' || c = '-'

/-- `url.match(/(?:youtube\.com\/watch\?v=|youtu\.be\/)([a-zA-Z0-9_-]+)/)`:
scan left to right; at the first position where either literal alternative
matches and is followed by at least one id character, capture the maximal
id-character run. -/
def findVideoId : List Char → Option String
  | [] => none
  | l@(_ :: rest) =>
    match dropLit "youtube.com/watch?v=".data l <|> dropLit "youtu.be/".data l with
    | some after =>
      let ds := after.takeWhile isIdChar
      if ds = [] then findVideoId rest else some (String.mk ds)
    | none => findVideoId rest

/-- `extractVideoIdFromUrl` of the YouTube agent. -/
def extractVideoIdFromUrl (url : String) : Option String :=
  findVideoId url.data

/-- The transcript resolution step of `handleSummarization`:
`let transcript = item.content; if (!transcript && item.url) { … transcript
= await getVideoTranscript(videoId) }`. The transcript service is an
external collaborator, so its response is the parameter `fetched`. -/
def resolveTranscript (item : ContentItemRow) (fetched : String) : String :=
  if item.content = "" ∧ item.url ≠ "" then
    match extractVideoIdFromUrl item.url with
    | some _ => fetched
    | none => item.content
  else item.content

/-- `summaryPrompt.format(...)`: the prompt the agent sends to the LLM;
the static template text is abbreviated, the interpolated fields are the
ones of the source (title, channel with `|| 'Unknown'`, formatted
duration with `|| 0`, and the transcript already truncated by the caller
via `transcript.slice(0, 8000)`). -/
def formatPrompt (title channel duration transcript : String) : String :=
  "You are an expert content summarizer. Create a comprehensive summary of this YouTube video.\n"
    ++ "Video Title: " ++ title ++ "\n"
    ++ "Channel: " ++ channel ++ "\n"
    ++ "Duration: " ++ duration ++ "\n"
    ++ "Transcript: " ++ transcript ++ "\n"
    ++ "Format your response as JSON with fields summary, keyPoints, topics, sentiment, confidence."

/-- The response body of a `summarize` action (success flag, error text,
and the id of the freshly inserted summary when successful). -/
structure SummarizeResponse where
  success : Bool
  error : Option String
  summaryId : Option String
  deriving DecidableEq, Repr

/-- The row `handleSummarization` inserts on success
(`summary_${item.id}_${Date.now()}` with the clock abstracted). -/
def mkSummaryRow (item : ContentItemRow) (cid uid : String) (d : SummaryData)
    (now : Nat) : SummaryRow :=
  { id := "summary_" ++ item.id ++ "_" ++ toString now
    contentItemId := cid
    userId := uid
    summary := d.summary
    keyPoints := d.keyPoints
    sentiment := d.sentiment
    topics := d.topics
    aiModel := "gpt-4o-mini"
    confidence := d.confidence }

/-- `handleSummarization` of the YouTube agent as a state-passing
function. `oracle` is the composite external step `llm.invoke` followed by
`JSON.parse` of its content: `Except.error m` models a thrown error
(network failure or malformed/non-JSON response), which the surrounding
`try/catch` turns into an error response. The summary insert happens only
after a successful parse; the Supabase mirror write is an external side
channel. The function returns the response and the new `summaries`
table (`items` is never written). -/
def handleSummarization (items : List ContentItemRow) (sums : List SummaryRow)
    (contentItemId userId : Option String) (fetched : String)
    (oracle : String → Except String SummaryData) (now : Nat) :
    SummarizeResponse × List SummaryRow :=
  match contentItemId, userId with
  | some cid, some uid =>
    match items.find? (fun i => i.id == cid) with
    | none =>
      ({ success := false, error := some "Content item not found", summaryId := none }, sums)
    | some item =>
      let transcript := resolveTranscript item fetched
      if transcript = "" then
        ({ success := false, error := some "No transcript available for this video",
           summaryId := none }, sums)
      else
        let prompt := formatPrompt item.title
          (if item.metadata.author = "" then "Unknown" else item.metadata.author)
          (formatDuration (item.metadata.duration.getD 0))
          (jsSliceStr transcript 0 8000)
        match oracle prompt with
        | Except.error m =>
          ({ success := false, error := some m, summaryId := none }, sums)
        | Except.ok d =>
          let sid := "summary_" ++ item.id ++ "_" ++ toString now
          ({ success := true, error := none, summaryId := some sid },
           sums ++ [mkSummaryRow item cid uid d now])
  | _, _ =>
    ({ success := false,
       error := some "contentItemId and userId are required for summarization",
       summaryId := none }, sums)

/-- Number of summary rows for a content item. -/
def countSummaries (sums : List SummaryRow) (cid : String) : Nat :=
  sums.countP (fun s => s.contentItemId == cid)

/-! ## Orchestrator: monitoring cycle (`handleMonitoring` of the
content-orchestrator agent) -/

/-- A `content_sources` row, with the fields the orchestrator reads. -/
structure SourceRow where
  id : String
  userId : String
  type : String
  name : String
  url : String
  isActive : Bool
  deriving DecidableEq, Repr

/-- The parsed JSON body a sub-agent's `monitor` action answers with:
`result.success`, `result.data?.newItems || 0`, `result.error`. -/
structure AgentRunResult where
  success : Bool
  newItems : Nat
  error : Option String
  deriving DecidableEq, Repr

/-- One entry of the per-source outcome list the cycle builds. A record
pushed from the `catch` branch has no `newItems` field; the summary line
reads it as `r.newItems || 0`, so it is modelled as `0`. -/
structure SourceOutcome where
  sourceId : String
  sourceName : String
  type : String
  success : Bool
  newItems : Nat
  error : Option String
  deriving DecidableEq, Repr

/-- The `switch (source.type)` of the cycle: the agent a source is
dispatched to; `none` models the `default: continue` branch. -/
def agentNameFor : String → Option String
  | "youtube" => some "youtube-agent"
  | "rss" => some "rss-agent"
  | "newsletter" => some "newsletter-agent"
  | _ => none

/-- One iteration of the cycle loop over a source: dispatch to the
matching agent (`runAgent agentName sourceId`, whose `Except.error e`
models a thrown fetch/monitor error caught by the per-source
`try/catch`), and build the outcome record; `none` when the source type is
unknown and the loop `continue`s. -/
def outcomeFor (runAgent : String → String → Except String AgentRunResult)
    (s : SourceRow) : Option SourceOutcome :=
  match agentNameFor s.type with
  | none => none
  | some an =>
    match runAgent an s.id with
    | Except.ok r =>
      some { sourceId := s.id, sourceName := s.name, type := s.type,
             success := r.success, newItems := r.newItems, error := r.error }
    | Except.error e =>
      some { sourceId := s.id, sourceName := s.name, type := s.type,
             success := false, newItems := 0, error := some e }

/-- The aggregate response of the monitoring cycle. -/
structure CycleResponse where
  success : Bool
  sourcesProcessed : Nat
  results : List SourceOutcome
  successful : Nat
  failed : Nat
  totalNewItems : Nat
  deriving DecidableEq, Repr

/-- The orchestrator's `handleMonitoring`: select the active sources,
process each inside its own `try/catch`, and always answer
`success: true` with the collected per-source outcome list and the
summary counters. -/
def handleMonitoringCycle (allSources : List SourceRow)
    (runAgent : String → String → Except String AgentRunResult) : CycleResponse :=
  let sources := allSources.filter (fun s => s.isActive)
  let results := sources.filterMap (outcomeFor runAgent)
  { success := true
    sourcesProcessed := sources.length
    results := results
    successful := (results.filter (fun r => r.success)).length
    failed := (results.filter (fun r => !r.success)).length
    totalNewItems := results.foldl (fun acc r => acc + r.newItems) 0 }

/-! ## Storage fan-out (`StorageManager`) -/

/-- A storage location returned by a provider's `createDocument`. -/
structure StoreLoc where
  id : String
  summaryId : String
  provider : String
  externalId : String
  url : String
  deriving DecidableEq, Repr

/-- A registered provider: its `isConfigured()` answer and the outcome of
its external `createDocument` call for the summary at hand
(`Except.error` models a thrown error). -/
structure ProviderModel where
  configured : Bool
  createDoc : Except String StoreLoc
  deriving Repr

/-- `StorageManager.storeSummary(provider, …)`: unknown provider and
unconfigured provider throw; otherwise the provider's `createDocument`
decides. -/
def storeSummary (reg : List (String × ProviderModel)) (provider : String) :
    Except String StoreLoc :=
  match reg.lookup provider with
  | none => Except.error ("Storage provider \x27" ++ provider ++ "\x27 not found")
  | some p =>
    if p.configured = false then
      Except.error ("Storage provider \x27" ++ provider ++ "\x27 is not configured")
    else p.createDoc

/-- The provider loop of `storeSummaryMultiple`: successes go to
`results`, failures to `errors` (as `provider: message` strings), and the
loop never aborts early. -/
def storeLoop (reg : List (String × ProviderModel)) :
    List String → List StoreLoc → List String → List StoreLoc × List String
  | [], rs, es => (rs, es)
  | p :: ps, rs, es =>
    match storeSummary reg p with
    | Except.ok loc => storeLoop reg ps (rs ++ [loc]) es
    | Except.error e => storeLoop reg ps rs (es ++ [p ++ ": " ++ e])

/-- `StorageManager.storeSummaryMultiple(providers, …)`: run the loop;
throw an aggregate error when no provider succeeded, otherwise return the
successful locations (and only them). -/
def storeSummaryMultiple (reg : List (String × ProviderModel))
    (providers : List String) : Except String (List StoreLoc) :=
  let r := storeLoop reg providers [] []
  if r.1.isEmpty then
    Except.error ("Failed to store in any provider. Errors: "
      ++ String.intercalate ", " r.2)
  else Except.ok r.1

/-! ## Lemmas about the YouTube monitoring loop -/

/-- The existence check answers exactly "the dedup key already has a
row". -/
lemma existsItem_iff_countKey_pos (items : List ContentItemRow) (sid u : String) :
    existsItem items sid u = true ↔ 0 < countKey items sid u := by
  unfold existsItem countKey
  rw [List.any_eq_true, List.countP_pos_iff]

/-- Appending one row changes the key count by its key match. -/
lemma countKey_append_single (items : List ContentItemRow) (row : ContentItemRow)
    (sid u : String) :
    countKey (items ++ [row]) sid u =
      countKey items sid u + if row.sourceId == sid && row.url == u then 1 else 0 := by
  unfold countKey
  simp [List.countP_append, List.countP_cons]

/-- The key of a freshly built video row. -/
lemma mkVideoItem_key (sid : String) (v : YouTubeVideo) (now : Nat) (u : String) :
    ((mkVideoItem sid v now).sourceId == sid && (mkVideoItem sid v now).url == u)
      = (videoUrl v == u) := by
  simp [mkVideoItem]

/-- Unfolding equation: empty candidate list. -/
lemma monitorVideos_nil (sid : String) (items : List ContentItemRow) (now : Nat) :
    monitorVideos sid [] items now = (items, 0) := rfl

/-- Unfolding equation: candidate whose key already has a row (silent
skip). -/
lemma monitorVideos_cons_hit {sid : String} {items : List ContentItemRow}
    {v : YouTubeVideo} (vs : List YouTubeVideo) (now : Nat)
    (h : existsItem items sid (videoUrl v) = true) :
    monitorVideos sid (v :: vs) items now = monitorVideos sid vs items (now + 1) := by
  simp [monitorVideos, h]

/-- Unfolding equation: candidate whose key has no row yet (insert and
count). -/
lemma monitorVideos_cons_miss {sid : String} {items : List ContentItemRow}
    {v : YouTubeVideo} (vs : List YouTubeVideo) (now : Nat)
    (h : ¬ existsItem items sid (videoUrl v) = true) :
    monitorVideos sid (v :: vs) items now =
      ((monitorVideos sid vs (items ++ [mkVideoItem sid v now]) (now + 1)).1,
       (monitorVideos sid vs (items ++ [mkVideoItem sid v now]) (now + 1)).2 + 1) := by
  simp [monitorVideos, h]

/-- Row-count evolution of the monitoring loop: a key of the monitored
source that occurs among the candidates and had no row before ends with
exactly one row; every other key count is untouched. -/
lemma monitorVideos_countKey (sid u : String) :
    ∀ (vs : List YouTubeVideo) (items : List ContentItemRow) (now : Nat),
    countKey (monitorVideos sid vs items now).1 sid u =
      if (vs.any fun v => videoUrl v == u) ∧ countKey items sid u = 0 then 1
      else countKey items sid u := by
  intro vs
  induction vs with
  | nil => intro items now; simp [monitorVideos_nil]
  | cons v vs ih =>
    intro items now
    by_cases h : existsItem items sid (videoUrl v) = true
    · have hpos : 0 < countKey items sid (videoUrl v) :=
        (existsItem_iff_countKey_pos items sid (videoUrl v)).1 h
      rw [monitorVideos_cons_hit vs now h, ih]
      by_cases hu : videoUrl v = u
      · subst hu
        have hne : countKey items sid (videoUrl v) ≠ 0 := by omega
        rw [if_neg (fun hc => hne hc.2), if_neg (fun hc => hne hc.2)]
      · have hbu : (videoUrl v == u) = false := beq_eq_false_iff_ne.2 hu
        simp only [List.any_cons, hbu, Bool.false_or]
    · have hzero : countKey items sid (videoUrl v) = 0 := by
        rcases Nat.eq_zero_or_pos (countKey items sid (videoUrl v)) with h0 | hp
        · exact h0
        · exact absurd ((existsItem_iff_countKey_pos items sid (videoUrl v)).2 hp) h
      rw [monitorVideos_cons_miss vs now h]
      simp only []
      rw [ih, countKey_append_single, mkVideoItem_key]
      by_cases hu : videoUrl v = u
      · subst hu
        simp only [beq_self_eq_true, if_true, hzero]
        rw [if_neg (fun hc => by omega), if_pos (by simp)]
      · have hbu : (videoUrl v == u) = false := beq_eq_false_iff_ne.2 hu
        simp only [hbu, Bool.false_eq_true, if_false, Nat.add_zero, List.any_cons,
          Bool.false_or]

/-- If every candidate key already has a row, the loop creates nothing. -/
lemma monitorVideos_newItems_zero {sid : String} :
    ∀ (vs : List YouTubeVideo) (items : List ContentItemRow) (now : Nat),
    (∀ v ∈ vs, existsItem items sid (videoUrl v) = true) →
    (monitorVideos sid vs items now).2 = 0 := by
  intro vs
  induction vs with
  | nil => intro items now _; rfl
  | cons v vs ih =>
    intro items now hall
    rw [monitorVideos_cons_hit vs now (hall v (by simp))]
    exact ih items (now + 1) (fun w hw => hall w (by simp [hw]))

/-- After a monitoring pass, every candidate key has a row. -/
lemma monitorVideos_exists_after {sid : String}
    (vs : List YouTubeVideo) (items : List ContentItemRow) (now : Nat) :
    ∀ v ∈ vs, existsItem (monitorVideos sid vs items now).1 sid (videoUrl v) = true := by
  intro v hv
  rw [existsItem_iff_countKey_pos, monitorVideos_countKey]
  have hany : (vs.any fun w => videoUrl w == videoUrl v) = true :=
    List.any_eq_true.2 ⟨v, hv, beq_self_eq_true (videoUrl v)⟩
  by_cases h0 : countKey items sid (videoUrl v) = 0
  · rw [if_pos ⟨hany, h0⟩]; omega
  · rw [if_neg (fun hc => h0 hc.2)]; omega

/-! ## Lemmas about the RSS monitoring loop -/

/-- Unfolding equation: empty feed. -/
lemma monitorFeedItems_nil (sid : String) (items : List ContentItemRow) (now : Nat) :
    monitorFeedItems sid [] items now = (items, 0) := rfl

/-- Unfolding equation: feed entry inserted (no existing row, truthy
link). -/
lemma monitorFeedItems_cons_insert {sid : String} {items : List ContentItemRow}
    {it : FeedItem} (rest : List FeedItem) (now : Nat)
    (h : existsItem items sid (it.link.getD "") = false ∧ truthyS it.link = true) :
    monitorFeedItems sid (it :: rest) items now
      = ((monitorFeedItems sid rest (items ++ [mkArticleItem sid it now]) (now + 1)).1,
         (monitorFeedItems sid rest (items ++ [mkArticleItem sid it now]) (now + 1)).2 + 1) := by
  simp [monitorFeedItems, h.1, h.2]

/-- Unfolding equation: feed entry skipped (existing row, or missing/empty
link). -/
lemma monitorFeedItems_cons_skip {sid : String} {items : List ContentItemRow}
    {it : FeedItem} (rest : List FeedItem) (now : Nat)
    (h : ¬ (existsItem items sid (it.link.getD "") = false ∧ truthyS it.link = true)) :
    monitorFeedItems sid (it :: rest) items now
      = monitorFeedItems sid rest items (now + 1) := by
  simp only [monitorFeedItems]
  rw [if_neg h]

/-- A truthy link is a nonempty URL. -/
lemma truthyS_getD_ne {o : Option String} (h : truthyS o = true) : o.getD "" ≠ "" := by
  cases o with
  | none => exact absurd h (by simp [truthyS])
  | some s =>
    simp only [truthyS, decide_eq_true_eq] at h
    simpa using h

/-- The dedup key of a freshly built article row. -/
lemma mkArticleItem_key (sid : String) (it : FeedItem) (now : Nat) (u : String) :
    ((mkArticleItem sid it now).sourceId == sid && (mkArticleItem sid it now).url == u)
      = (it.link.getD "" == u) := by
  simp [mkArticleItem]

/-- Row-count evolution of the RSS loop: a key carried by some
truthy-link feed entry that had no row before ends with exactly one row;
every other key count is untouched (entries with a missing or empty link
never contribute a key). -/
lemma monitorFeedItems_countKey (sid u : String) :
    ∀ (feed : List FeedItem) (items : List ContentItemRow) (now : Nat),
    countKey (monitorFeedItems sid feed items now).1 sid u =
      if (feed.any fun it => truthyS it.link && (it.link.getD "" == u))
          ∧ countKey items sid u = 0 then 1
      else countKey items sid u := by
  intro feed
  induction feed with
  | nil => intro items now; simp [monitorFeedItems_nil]
  | cons it rest ih =>
    intro items now
    by_cases hc : existsItem items sid (it.link.getD "") = false ∧ truthyS it.link = true
    · have hzero : countKey items sid (it.link.getD "") = 0 := by
        rcases Nat.eq_zero_or_pos (countKey items sid (it.link.getD "")) with h0 | hp
        · exact h0
        · have hex := (existsItem_iff_countKey_pos items sid (it.link.getD "")).2 hp
          rw [hc.1] at hex
          exact absurd hex (by simp)
      rw [monitorFeedItems_cons_insert rest now hc]
      simp only []
      rw [ih, countKey_append_single, mkArticleItem_key]
      by_cases hu : it.link.getD "" = u
      · subst hu
        simp only [beq_self_eq_true, if_true, hzero]
        rw [if_neg (fun hx => by omega), if_pos (by simp [hc.2])]
      · have hbu : (it.link.getD "" == u) = false := beq_eq_false_iff_ne.2 hu
        simp only [hbu, Bool.false_eq_true, if_false, Nat.add_zero, List.any_cons,
          Bool.and_false, Bool.false_or]
    · rw [monitorFeedItems_cons_skip rest now hc, ih]
      by_cases htr : truthyS it.link = true
      · have hex : existsItem items sid (it.link.getD "") = true := by
          rcases he : existsItem items sid (it.link.getD "") with _ | _
          · exact absurd ⟨he, htr⟩ hc
          · rfl
        have hpos : 0 < countKey items sid (it.link.getD "") :=
          (existsItem_iff_countKey_pos items sid (it.link.getD "")).1 hex
        by_cases hu : it.link.getD "" = u
        · subst hu
          have hne : countKey items sid (it.link.getD "") ≠ 0 := by omega
          rw [if_neg (fun hx => hne hx.2), if_neg (fun hx => hne hx.2)]
        · have hbu : (it.link.getD "" == u) = false := beq_eq_false_iff_ne.2 hu
          simp only [List.any_cons, hbu, Bool.and_false, Bool.false_or]
      · have htr' : truthyS it.link = false := by
          rcases ht : truthyS it.link with _ | _
          · rfl
          · exact absurd ht htr
        simp only [List.any_cons, htr', Bool.false_and, Bool.false_or]

/-- If every truthy-link feed entry's key already has a row, the RSS loop
creates nothing. -/
lemma monitorFeedItems_newItems_zero {sid : String} :
    ∀ (feed : List FeedItem) (items : List ContentItemRow) (now : Nat),
    (∀ it ∈ feed, truthyS it.link = true →
      existsItem items sid (it.link.getD "") = true) →
    (monitorFeedItems sid feed items now).2 = 0 := by
  intro feed
  induction feed with
  | nil => intro items now _; rfl
  | cons it rest ih =>
    intro items now hall
    have hskip : ¬ (existsItem items sid (it.link.getD "") = false
        ∧ truthyS it.link = true) := by
      rintro ⟨hex, htr⟩
      rw [hall it (by simp) htr] at hex
      exact absurd hex (by simp)
    rw [monitorFeedItems_cons_skip rest now hskip]
    exact ih items (now + 1) (fun w hw htw => hall w (by simp [hw]) htw)

/-- After an RSS monitoring pass, every truthy-link feed entry's key has a
row. -/
lemma monitorFeedItems_exists_after {sid : String}
    (feed : List FeedItem) (items : List ContentItemRow) (now : Nat) :
    ∀ it ∈ feed, truthyS it.link = true →
    existsItem (monitorFeedItems sid feed items now).1 sid (it.link.getD "") = true := by
  intro it hit htr
  rw [existsItem_iff_countKey_pos, monitorFeedItems_countKey]
  have hany : (feed.any fun w => truthyS w.link && (w.link.getD "" == it.link.getD ""))
      = true :=
    List.any_eq_true.2 ⟨it, hit, by simp [htr]⟩
  by_cases h0 : countKey items sid (it.link.getD "") = 0
  · rw [if_pos ⟨hany, h0⟩]; omega
  · rw [if_neg (fun hx => h0 hx.2)]; omega

/-- Every row present after the RSS loop was already there or has a
nonempty canonical locator. -/
lemma monitorFeedItems_mem {sid : String} :
    ∀ (feed : List FeedItem) (items : List ContentItemRow) (now : Nat)
      (r : ContentItemRow),
    r ∈ (monitorFeedItems sid feed items now).1 → r ∈ items ∨ r.url ≠ "" := by
  intro feed
  induction feed with
  | nil => intro items now r hr; exact Or.inl hr
  | cons it rest ih =>
    intro items now r hr
    by_cases hc : existsItem items sid (it.link.getD "") = false ∧ truthyS it.link = true
    · rw [monitorFeedItems_cons_insert rest now hc] at hr
      rcases ih (items ++ [mkArticleItem sid it now]) (now + 1) r hr with hin | hurl
      · rcases List.mem_append.1 hin with hin' | hone
        · exact Or.inl hin'
        · have : r = mkArticleItem sid it now := by simpa using hone
          subst this
          exact Or.inr (truthyS_getD_ne hc.2)
      · exact Or.inr hurl
    · rw [monitorFeedItems_cons_skip rest now hc] at hr
      exact ih items (now + 1) r hr

/-! ## Concrete sample data used by witnesses and counterexamples -/

/-- A feed entry with no link at all. -/
def itemNoLink : FeedItem :=
  { title := some "no link", link := none, contentEncoded := none,
    content := none, description := some "d", summary := none,
    contentSnippet := none, creator := none, dcCreator := none,
    pubDate := none, isoDate := none, categories := [] }

/-- A feed entry with a proper link and HTML description. -/
def itemWithLink : FeedItem :=
  { title := some "ok", link := some "http://x", contentEncoded := none,
    content := none, description := some "<p>body</p>", summary := none,
    contentSnippet := none, creator := some "w", dcCreator := none,
    pubDate := some "2024-01-02", isoDate := none, categories := [] }

/-- A recent-uploads entry with a 45-second duration string. -/
def sampleVideo : YouTubeVideo :=
  { id := "abc", title := "Sample", channelTitle := "Chan",
    publishedAt := "2024-01-01", duration := "PT45S",
    transcript := some "words", thumbnailUrl := "thumb" }

/-- An already-ingested content item with a transcript. -/
def itemA : ContentItemRow :=
  { id := "item1", sourceId := "s1", type := "video", title := "T",
    url := "https://www.youtube.com/watch?v=abc",
    content := "some transcript text",
    metadata := { author := "Ch", publishedAt := "2024-01-01",
                  duration := some 60, thumbnailUrl := some "th", tags := [] } }

/-- A summary row already persisted for `itemA`. -/
def oldSummary : SummaryRow :=
  { id := "summary_item1_1", contentItemId := "item1", userId := "u1",
    summary := "old", keyPoints := [], sentiment := "neutral", topics := [],
    aiModel := "gpt-4o-mini", confidence := 80 }

/-- A well-formed oracle answer. -/
def dataA : SummaryData :=
  { summary := "new", keyPoints := ["k"], topics := ["t"],
    sentiment := "positive", confidence := 90 }

/-! ## C3 -/

/-- C3: monitoring is idempotent and dedup-correct, for both embedded
source loops. For the YouTube loop and for the RSS loop alike: a second
monitoring pass over the same candidate list reports `newItems = 0`; and
for every dedup key `(sid, u)`: if some candidate carries the key and no
row had it, exactly one row has it afterwards; if a row already had the
key, or no candidate carries it, the key's row count is unchanged (a hit
in the existence check is a silent skip). Duplicates inside one fetch
fall under the same count equations, so exactly one row is created per
distinct key; in the RSS loop a candidate contributes a key only when its
link is present and nonempty. -/
theorem monitor_idempotent_and_dedup :
    (∀ (sid : String) (videos : List YouTubeVideo) (items : List ContentItemRow)
       (now now2 : Nat),
      (monitorResult sid videos (monitorResult sid videos items now).2 now2).1.newItems = 0
      ∧ (∀ u : String,
          ((videos.any fun v => videoUrl v == u) = true → countKey items sid u = 0 →
            countKey (monitorVideos sid videos items now).1 sid u = 1)
          ∧ (countKey items sid u ≠ 0 →
            countKey (monitorVideos sid videos items now).1 sid u = countKey items sid u)
          ∧ ((videos.any fun v => videoUrl v == u) = false →
            countKey (monitorVideos sid videos items now).1 sid u = countKey items sid u)))
    ∧ (∀ (sid : String) (feed : List FeedItem) (items : List ContentItemRow)
        (now now2 : Nat),
      (rssMonitorResult sid feed (rssMonitorResult sid feed items now).2 now2).1.newItems = 0
      ∧ (∀ u : String,
          ((feed.any fun it => truthyS it.link && (it.link.getD "" == u)) = true →
            countKey items sid u = 0 →
            countKey (monitorFeedItems sid feed items now).1 sid u = 1)
          ∧ (countKey items sid u ≠ 0 →
            countKey (monitorFeedItems sid feed items now).1 sid u = countKey items sid u)
          ∧ ((feed.any fun it => truthyS it.link && (it.link.getD "" == u)) = false →
            countKey (monitorFeedItems sid feed items now).1 sid u
              = countKey items sid u))) := by
  constructor
  · intro sid videos items now now2
    constructor
    · show (monitorVideos sid videos (monitorVideos sid videos items now).1 now2).2 = 0
      exact monitorVideos_newItems_zero videos _ now2
        (monitorVideos_exists_after videos items now)
    · intro u
      refine ⟨?_, ?_, ?_⟩
      · intro hany hzero
        rw [monitorVideos_countKey, if_pos ⟨hany, hzero⟩]
      · intro hne
        rw [monitorVideos_countKey, if_neg (fun hc => hne hc.2)]
      · intro hnone
        rw [monitorVideos_countKey,
          if_neg (fun hc => by rw [hnone] at hc; exact Bool.false_ne_true hc.1)]
  · intro sid feed items now now2
    constructor
    · show (monitorFeedItems sid feed (monitorFeedItems sid feed items now).1 now2).2 = 0
      exact monitorFeedItems_newItems_zero feed _ now2
        (fun it hit htr => monitorFeedItems_exists_after feed items now it hit htr)
    · intro u
      refine ⟨?_, ?_, ?_⟩
      · intro hany hzero
        rw [monitorFeedItems_countKey, if_pos ⟨hany, hzero⟩]
      · intro hne
        rw [monitorFeedItems_countKey, if_neg (fun hc => hne hc.2)]
      · intro hnone
        rw [monitorFeedItems_countKey,
          if_neg (fun hc => by rw [hnone] at hc; exact Bool.false_ne_true hc.1)]

/-- Witness for C3 at one concrete duplicated fetch per loop: two copies
of the same video, and two copies of the same linked feed entry, each
starting from an empty table; each second pass creates nothing and each
key ends with exactly one row. -/
theorem monitor_idempotent_and_dedup_witness :
    (monitorResult "s1" [sampleVideo, sampleVideo]
      (monitorResult "s1" [sampleVideo, sampleVideo] [] 0).2 2).1.newItems = 0
    ∧ countKey (monitorVideos "s1" [sampleVideo, sampleVideo] [] 0).1 "s1"
        (videoUrl sampleVideo) = 1
    ∧ (rssMonitorResult "s2" [itemWithLink, itemWithLink]
        (rssMonitorResult "s2" [itemWithLink, itemWithLink] [] 0).2 2).1.newItems = 0
    ∧ countKey (monitorFeedItems "s2" [itemWithLink, itemWithLink] [] 0).1 "s2"
        "http://x" = 1 :=
  ⟨(monitor_idempotent_and_dedup.1 "s1" [sampleVideo, sampleVideo] [] 0 2).1,
   ((monitor_idempotent_and_dedup.1 "s1" [sampleVideo, sampleVideo] [] 0 2).2
      (videoUrl sampleVideo)).1 (by decide) (by decide),
   (monitor_idempotent_and_dedup.2 "s2" [itemWithLink, itemWithLink] [] 0 2).1,
   ((monitor_idempotent_and_dedup.2 "s2" [itemWithLink, itemWithLink] [] 0 2).2
      "http://x").1 (by decide) (by decide)⟩

/-! ## C1 -/

/-- C1 counterexample: a `summarize` call for an item that already has a
persisted Summary row inserts a second row for the same content item and
answers with a fresh summary id, not the existing one. The handler never
consults the `summaries` table before inserting. -/
theorem second_summarize_inserts_again :
    countSummaries (handleSummarization [itemA] [oldSummary] (some "item1")
      (some "u1") "" (fun _ => Except.ok dataA) 7).2 "item1" = 2
    ∧ (handleSummarization [itemA] [oldSummary] (some "item1") (some "u1") ""
        (fun _ => Except.ok dataA) 7).1.summaryId = some "summary_item1_7"
    ∧ oldSummary.id ≠ "summary_item1_7" := by
  decide

/-- C1 amended: every successful `summarize` call appends a fresh Summary
row, unconditionally — even when the item already has one. The at-most-one
policy is not enforced anywhere in the call. -/
theorem summarize_always_appends :
    ∀ (items : List ContentItemRow) (sums : List SummaryRow) (cid uid : String)
      (item : ContentItemRow) (fetched : String) (d : SummaryData) (now : Nat),
    items.find? (fun i => i.id == cid) = some item →
    resolveTranscript item fetched ≠ "" →
    (handleSummarization items sums (some cid) (some uid) fetched
        (fun _ => Except.ok d) now).1.success = true
    ∧ (handleSummarization items sums (some cid) (some uid) fetched
        (fun _ => Except.ok d) now).2 = sums ++ [mkSummaryRow item cid uid d now]
    ∧ countSummaries (handleSummarization items sums (some cid) (some uid) fetched
        (fun _ => Except.ok d) now).2 cid = countSummaries sums cid + 1 := by
  intro items sums cid uid item fetched d now hfind htr
  have hrun : handleSummarization items sums (some cid) (some uid) fetched
      (fun _ => Except.ok d) now
      = ({ success := true, error := none,
           summaryId := some ("summary_" ++ item.id ++ "_" ++ toString now) },
         sums ++ [mkSummaryRow item cid uid d now]) := by
    simp only [handleSummarization, hfind]
    rw [if_neg htr]
  refine ⟨by rw [hrun], by rw [hrun], ?_⟩
  rw [hrun]
  unfold countSummaries
  simp [List.countP_append, List.countP_cons, mkSummaryRow]

/-- Witness for C1 amended, at the concrete second call of the
counterexample. -/
theorem summarize_always_appends_witness :
    (handleSummarization [itemA] [oldSummary] (some "item1") (some "u1") ""
        (fun _ => Except.ok dataA) 7).2
      = [oldSummary] ++ [mkSummaryRow itemA "item1" "u1" dataA 7]
    ∧ countSummaries (handleSummarization [itemA] [oldSummary] (some "item1")
        (some "u1") "" (fun _ => Except.ok dataA) 7).2 "item1"
      = countSummaries [oldSummary] "item1" + 1 :=
  ⟨(summarize_always_appends [itemA] [oldSummary] "item1" "u1" itemA "" dataA 7
      (by decide) (by decide)).2.1,
   (summarize_always_appends [itemA] [oldSummary] "item1" "u1" itemA "" dataA 7
      (by decide) (by decide)).2.2⟩

/-! ## C2 -/

/-- C2 counterexample: the persisted schema declares no uniqueness
constraint at all on `content_items` or `summaries` (their only key is the
primary key `id`); the embedding does record unique constraints where the
schema declares one (`users.email`), so their absence here is absence in
the schema, not in the model. -/
theorem schema_has_no_dedup_unique_constraint :
    contentItemsTable.uniqueColumns = []
    ∧ summariesTable.uniqueColumns = []
    ∧ contentItemsTable.primaryKey = ["id"]
    ∧ summariesTable.primaryKey = ["id"]
    ∧ usersTable.uniqueColumns = [["email"]] := by
  decide

/-- C2 amended: the schema carries only non-unique indexes on
`content_items.source_id` and `summaries.content_item_id` and no unique
constraint on either dedup key; duplicate protection for content items
comes solely from the application-level existence check before insert,
which does keep at most one row per (sourceId, url) key. -/
theorem schema_indexes_and_app_level_dedup :
    ("source_idx", ["source_id"]) ∈ contentItemsTable.indexes
    ∧ ("content_idx", ["content_item_id"]) ∈ summariesTable.indexes
    ∧ contentItemsTable.uniqueColumns = []
    ∧ summariesTable.uniqueColumns = []
    ∧ (∀ (sid : String) (videos : List YouTubeVideo) (items : List ContentItemRow)
        (now : Nat) (u : String),
        countKey items sid u ≤ 1 →
        countKey (monitorVideos sid videos items now).1 sid u ≤ 1) := by
  refine ⟨by decide, by decide, by decide, by decide, ?_⟩
  intro sid videos items now u hle
  rw [monitorVideos_countKey]
  by_cases hc : (videos.any fun v => videoUrl v == u) ∧ countKey items sid u = 0
  · rw [if_pos hc]
  · rw [if_neg hc]; exact hle

/-- Witness for C2 amended: the application-level guard at a concrete
duplicated fetch. -/
theorem schema_indexes_and_app_level_dedup_witness :
    countKey ([] : List ContentItemRow) "s1" (videoUrl sampleVideo) ≤ 1
    ∧ countKey (monitorVideos "s1" [sampleVideo, sampleVideo] [] 0).1 "s1"
        (videoUrl sampleVideo) ≤ 1 :=
  ⟨by decide,
   schema_indexes_and_app_level_dedup.2.2.2.2 "s1" [sampleVideo, sampleVideo] [] 0
     (videoUrl sampleVideo) (by decide)⟩

/-! ## C4 -/

/-- C4: the duration parser maps the ISO-8601-subset strings to whole
seconds with all three groups optional and defaulting to zero
(`PT1H2M3S` → 3723, `PT45S` → 45, `PT` → 0, `PT2M` → 120), and every
string the regex does not match — the empty string and any string without
the mandatory `PT` — yields 0. -/
theorem parseDuration_spec :
    parseDuration "PT1H2M3S" = 3723
    ∧ parseDuration "PT45S" = 45
    ∧ parseDuration "PT" = 0
    ∧ parseDuration "PT2M" = 120
    ∧ parseDuration "" = 0
    ∧ (∀ s : String, findPT s.data = none → parseDuration s = 0) := by
  refine ⟨by decide, by decide, by decide, by decide, by decide, ?_⟩
  intro s h
  unfold parseDuration
  rw [h]

/-- Witness for C4 at a concrete non-matching string. -/
theorem parseDuration_spec_witness :
    findPT "four minutes".data = none ∧ parseDuration "four minutes" = 0 :=
  ⟨by decide, parseDuration_spec.2.2.2.2.2 "four minutes" (by decide)⟩

/-! ## C5 -/

/-- C5: `stripHtml` removes all tags and decodes the five named entities
`nbsp`, `amp`, `lt`, `gt`, `quot`; on the concrete spec input
`<p>Hello &amp; welcome</p>` it yields `Hello & welcome`, the second
equation exercises all five entity decodings, and the third removes
nested tags. -/
theorem stripHtml_spec :
    stripHtml "<p>Hello &amp; welcome</p>" = "Hello & welcome"
    ∧ stripHtml "a&nbsp;b&lt;c&gt;d&quot;e" = "a b<c>d\"e"
    ∧ stripHtml "<b><i>x</i></b>" = "x" := by
  decide

/-! ## C6 -/

/-- C6: before the oracle is invoked the transcript is truncated to the
fixed 8000-character cap — `slice(0, 8000)` returns text of length at most
the cap unmodified, and exactly the first 8000 characters of longer text —
and truncation is not an error: a summarize call over an item with
non-empty raw text succeeds whenever the oracle answer parses, with no
length precondition. -/
theorem truncation_cap_spec :
    (∀ s : String, s.length ≤ 8000 → jsSliceStr s 0 8000 = s)
    ∧ (∀ s : String, 8000 < s.length →
        jsSliceStr s 0 8000 = String.mk (s.data.take 8000)
        ∧ (jsSliceStr s 0 8000).length = 8000)
    ∧ (∀ (item : ContentItemRow) (sums : List SummaryRow) (uid fetched : String)
        (d : SummaryData) (now : Nat),
        item.content ≠ "" →
        (handleSummarization [item] sums (some item.id) (some uid) fetched
          (fun _ => Except.ok d) now).1.success = true) := by
  refine ⟨?_, ?_, ?_⟩
  · intro s hle
    unfold jsSliceStr
    rw [List.drop_zero, List.take_of_length_le (by exact hle)]
  · intro s hgt
    constructor
    · unfold jsSliceStr
      rw [List.drop_zero]
    · show (String.mk ((s.data.drop 0).take (8000 - 0))).length = 8000
      rw [List.drop_zero]
      show (s.data.take 8000).length = 8000
      rw [List.length_take]
      exact Nat.min_eq_left (Nat.le_of_lt hgt)
  · intro item sums uid fetched d now hc
    have hfind : [item].find? (fun i => i.id == item.id) = some item := by
      simp [List.find?]
    have htr : resolveTranscript item fetched ≠ "" := by
      unfold resolveTranscript
      rw [if_neg (fun hx => hc hx.1)]
      exact hc
    exact (summarize_always_appends [item] sums item.id uid item fetched d now
      hfind htr).1

/-- The 8001-character string exercising the truncation boundary. -/
def bigText : String := String.mk (List.replicate 8001 'a')

/-- Witness for C6: a short transcript passes unmodified, the long one is
cut to exactly the cap, and the concrete summarize call over `itemA`
succeeds. -/
theorem truncation_cap_spec_witness :
    ("hi".length ≤ 8000 ∧ jsSliceStr "hi" 0 8000 = "hi")
    ∧ (8000 < bigText.length ∧ (jsSliceStr bigText 0 8000).length = 8000)
    ∧ (itemA.content ≠ ""
       ∧ (handleSummarization [itemA] [] (some itemA.id) (some "u1") ""
            (fun _ => Except.ok dataA) 3).1.success = true) :=
  have hbig : 8000 < bigText.length := by
    show 8000 < (List.replicate 8001 'a').length
    rw [List.length_replicate]
    omega
  ⟨⟨by decide, truncation_cap_spec.1 "hi" (by decide)⟩,
   ⟨hbig, (truncation_cap_spec.2.1 bigText hbig).2⟩,
   ⟨by decide, truncation_cap_spec.2.2 itemA [] "u1" "" dataA 3 (by decide)⟩⟩

/-! ## C9 -/

/-- C9: a failed oracle call (malformed or non-JSON response, modelled as
the composite invoke-and-parse step throwing `m`) is atomic with respect
to the summary store: every such summarize call answers `success = false`
and leaves the `summaries` table exactly as it was, so the item stays in
the ingested-no-summary state and the call can be retried. -/
theorem oracle_failure_is_atomic :
    ∀ (items : List ContentItemRow) (sums : List SummaryRow)
      (contentItemId userId : Option String) (fetched m : String) (now : Nat),
    (handleSummarization items sums contentItemId userId fetched
        (fun _ => Except.error m) now).1.success = false
    ∧ (handleSummarization items sums contentItemId userId fetched
        (fun _ => Except.error m) now).2 = sums := by
  intro items sums contentItemId userId fetched m now
  rcases contentItemId with _ | cid
  · exact ⟨rfl, rfl⟩
  rcases userId with _ | uid
  · exact ⟨rfl, rfl⟩
  cases hfind : items.find? (fun i => i.id == cid) with
  | none => simp [handleSummarization, hfind]
  | some item =>
    by_cases htr : resolveTranscript item fetched = ""
    · simp [handleSummarization, hfind, htr]
    · simp [handleSummarization, hfind, htr]

/-! ## C7 -/

/-- What the provider loop accumulates: the successes in request order and
one `provider: message` string per failure. -/
lemma storeLoop_spec (reg : List (String × ProviderModel)) :
    ∀ (ps : List String) (rs : List StoreLoc) (es : List String),
    storeLoop reg ps rs es
      = (rs ++ ps.filterMap (fun p => (storeSummary reg p).toOption),
         es ++ ps.filterMap (fun p =>
           match storeSummary reg p with
           | Except.ok _ => none
           | Except.error e => some (p ++ ": " ++ e))) := by
  intro ps
  induction ps with
  | nil => intro rs es; simp [storeLoop]
  | cons p ps ih =>
    intro rs es
    cases h : storeSummary reg p with
    | ok loc => simp [storeLoop, h, ih, Except.toOption]
    | error e => simp [storeLoop, h, ih, Except.toOption]

/-- A notion page location. -/
def locN : StoreLoc :=
  { id := "n1", summaryId := "sum1", provider := "notion",
    externalId := "pageN", url := "urlN" }

/-- A google-docs location. -/
def locG : StoreLoc :=
  { id := "g1", summaryId := "sum1", provider := "google_docs",
    externalId := "docG", url := "urlG" }

/-- Three providers, the middle one always throwing with message A. -/
def regA : List (String × ProviderModel) :=
  [("notion", { configured := true, createDoc := Except.ok locN }),
   ("bad", { configured := true, createDoc := Except.error "boom-A" }),
   ("google_docs", { configured := true, createDoc := Except.ok locG })]

/-- The same registry with a different error message for the failing
provider. -/
def regB : List (String × ProviderModel) :=
  [("notion", { configured := true, createDoc := Except.ok locN }),
   ("bad", { configured := true, createDoc := Except.error "boom-B" }),
   ("google_docs", { configured := true, createDoc := Except.ok locG })]

/-- C7 counterexample: with three requested providers of which one fails,
the aggregate call returns only the two successful locations — a
two-element list with no per-provider error entry — and the returned value
is identical whatever the failing provider's error was, so the failure is
not recorded in the returned result (it is only logged, and surfaced in
the aggregate error when all providers fail). -/
theorem replicate_failure_not_in_result :
    storeSummaryMultiple regA ["notion", "bad", "google_docs"]
      = Except.ok [locN, locG]
    ∧ storeSummaryMultiple regB ["notion", "bad", "google_docs"]
      = storeSummaryMultiple regA ["notion", "bad", "google_docs"] := by
  exact ⟨rfl, rfl⟩

/-- C7 amended: the provider loop is independent per provider — a failing
provider never aborts the rest, the aggregate call succeeds exactly when
at least one provider succeeds and then returns the successful locations
in request order (and nothing else), and when every requested provider
fails the aggregate call fails. -/
theorem storage_fanout_independent :
    ∀ (reg : List (String × ProviderModel)) (ps : List String),
    ((∃ p ∈ ps, (storeSummary reg p).toOption ≠ none) →
      storeSummaryMultiple reg ps
        = Except.ok (ps.filterMap fun p => (storeSummary reg p).toOption))
    ∧ ((∀ p ∈ ps, (storeSummary reg p).toOption = none) →
      ∃ msg, storeSummaryMultiple reg ps = Except.error msg) := by
  intro reg ps
  have hloop := storeLoop_spec reg ps [] []
  constructor
  · rintro ⟨p, hp, hne⟩
    have hmem : ∃ loc, loc ∈ ps.filterMap (fun q => (storeSummary reg q).toOption) := by
      cases ho : (storeSummary reg p).toOption with
      | none => exact absurd ho hne
      | some loc => exact ⟨loc, List.mem_filterMap.2 ⟨p, hp, ho⟩⟩
    obtain ⟨loc, hloc⟩ := hmem
    have hemp : (ps.filterMap (fun q => (storeSummary reg q).toOption)).isEmpty = false := by
      rcases he : (ps.filterMap (fun q => (storeSummary reg q).toOption)).isEmpty with _ | _
      · rfl
      · rw [List.isEmpty_iff] at he
        rw [he] at hloc
        exact absurd hloc (List.not_mem_nil loc)
    simp only [storeSummaryMultiple, hloop, List.nil_append, hemp, Bool.false_eq_true,
      if_false]
  · intro hall
    have hnil : ps.filterMap (fun q => (storeSummary reg q).toOption) = [] :=
      List.filterMap_eq_nil_iff.2 hall
    refine ⟨"Failed to store in any provider. Errors: "
      ++ String.intercalate ", " (ps.filterMap (fun p =>
          match storeSummary reg p with
          | Except.ok _ => none
          | Except.error e => some (p ++ ": " ++ e))), ?_⟩
    simp only [storeSummaryMultiple, hloop, List.nil_append, hnil, List.isEmpty_nil,
      if_true]

/-- Witness for C7 amended at the concrete three-provider registry. -/
theorem storage_fanout_independent_witness :
    storeSummaryMultiple regA ["notion", "bad", "google_docs"]
      = Except.ok (["notion", "bad", "google_docs"].filterMap
          fun p => (storeSummary regA p).toOption) :=
  (storage_fanout_independent regA ["notion", "bad", "google_docs"]).1
    ⟨"notion", by decide, by decide⟩

/-! ## C8 -/

/-- C8: the monitoring cycle isolates per-source failures. For any active
source list and any behavior of the dispatched agents, the cycle always
answers `success = true` with a per-source outcome list; every known-type
source whose agent call throws contributes an outcome marked failed and
carrying its error, and every source whose agent call returns contributes
an outcome with that call's own success flag — independently of what
happened to the other sources. -/
theorem cycle_isolates_failures :
    ∀ (allSources : List SourceRow)
      (runAgent : String → String → Except String AgentRunResult),
    (handleMonitoringCycle allSources runAgent).success = true
    ∧ (∀ s ∈ allSources.filter (fun s => s.isActive),
        ∀ an, agentNameFor s.type = some an →
        (∀ e, runAgent an s.id = Except.error e →
          ({ sourceId := s.id, sourceName := s.name, type := s.type,
             success := false, newItems := 0, error := some e } : SourceOutcome)
            ∈ (handleMonitoringCycle allSources runAgent).results)
        ∧ (∀ r, runAgent an s.id = Except.ok r →
          ({ sourceId := s.id, sourceName := s.name, type := s.type,
             success := r.success, newItems := r.newItems, error := r.error } : SourceOutcome)
            ∈ (handleMonitoringCycle allSources runAgent).results)) := by
  intro allSources runAgent
  refine ⟨rfl, ?_⟩
  intro s hs an han
  constructor
  · intro e he
    show _ ∈ (allSources.filter (fun s => s.isActive)).filterMap (outcomeFor runAgent)
    exact List.mem_filterMap.2 ⟨s, hs, by simp [outcomeFor, han, he]⟩
  · intro r hr
    show _ ∈ (allSources.filter (fun s => s.isActive)).filterMap (outcomeFor runAgent)
    exact List.mem_filterMap.2 ⟨s, hs, by simp [outcomeFor, han, hr]⟩

/-- An active YouTube source. -/
def srcY : SourceRow :=
  { id := "s1", userId := "u", type := "youtube", name := "Y", url := "uy",
    isActive := true }

/-- An active RSS source whose fetch will throw. -/
def srcR : SourceRow :=
  { id := "s2", userId := "u", type := "rss", name := "R", url := "ur",
    isActive := true }

/-- An active newsletter source. -/
def srcN : SourceRow :=
  { id := "s3", userId := "u", type := "newsletter", name := "N", url := "un",
    isActive := true }

/-- Agent behavior where monitoring source `s2` throws and every other
source reports one new item. -/
def runAgentW : String → String → Except String AgentRunResult :=
  fun _ sourceId =>
    if sourceId == "s2" then Except.error "fetch failed"
    else Except.ok { success := true, newItems := 1, error := none }

/-- Witness for C8: three sources with the second one throwing; the cycle
still succeeds, the failing source appears as a failure carrying its
error, and the first source appears as an independent success. -/
theorem cycle_isolates_failures_witness :
    (handleMonitoringCycle [srcY, srcR, srcN] runAgentW).success = true
    ∧ ({ sourceId := "s2", sourceName := "R", type := "rss", success := false,
         newItems := 0, error := some "fetch failed" } : SourceOutcome)
        ∈ (handleMonitoringCycle [srcY, srcR, srcN] runAgentW).results
    ∧ ({ sourceId := "s1", sourceName := "Y", type := "youtube", success := true,
         newItems := 1, error := none } : SourceOutcome)
        ∈ (handleMonitoringCycle [srcY, srcR, srcN] runAgentW).results :=
  ⟨(cycle_isolates_failures [srcY, srcR, srcN] runAgentW).1,
   ((cycle_isolates_failures [srcY, srcR, srcN] runAgentW).2 srcR (by decide)
      "rss-agent" rfl).1 "fetch failed" rfl,
   ((cycle_isolates_failures [srcY, srcR, srcN] runAgentW).2 srcY (by decide)
      "youtube-agent" rfl).2 { success := true, newItems := 1, error := none } rfl⟩

/-! ## C10 -/

/-- C10: a feed item with a missing or empty link creates no ContentItem —
the loop steps over it without inserting or counting it as new — so no
row with an empty canonical locator is ever ingested; yet every feed
entry, skipped or not, counts toward the reported `articlesChecked`
total. -/
theorem rss_empty_link_skipped :
    (∀ (sid : String) (it : FeedItem) (rest : List FeedItem)
       (items : List ContentItemRow) (now : Nat),
       truthyS it.link = false →
       monitorFeedItems sid (it :: rest) items now
         = monitorFeedItems sid rest items (now + 1))
    ∧ (∀ (sid : String) (feed : List FeedItem) (items : List ContentItemRow)
        (now : Nat) (r : ContentItemRow),
        r ∈ (monitorFeedItems sid feed items now).1 → r ∈ items ∨ r.url ≠ "")
    ∧ (∀ (sid : String) (feed : List FeedItem) (items : List ContentItemRow)
        (now : Nat),
        (rssMonitorResult sid feed items now).1.articlesChecked = feed.length) := by
  refine ⟨?_, ?_, ?_⟩
  · intro sid it rest items now h
    apply monitorFeedItems_cons_skip rest now
    intro hc
    rw [h] at hc
    exact Bool.false_ne_true hc.2
  · intro sid feed items now r
    exact monitorFeedItems_mem feed items now r
  · intro sid feed items now
    rfl

/-- Witness for C10: the linkless entry is skipped without touching the
table, an ingested row coming from a linked entry has a nonempty locator,
and the single-entry feed still reports `articlesChecked = 1`. -/
theorem rss_empty_link_skipped_witness :
    monitorFeedItems "s1" [itemNoLink] [] 0
      = monitorFeedItems "s1" ([] : List FeedItem) [] 1
    ∧ (mkArticleItem "s1" itemWithLink 0 ∈ ([] : List ContentItemRow)
       ∨ (mkArticleItem "s1" itemWithLink 0).url ≠ "")
    ∧ (rssMonitorResult "s1" [itemNoLink] [] 0).1.articlesChecked = 1 :=
  ⟨rss_empty_link_skipped.1 "s1" itemNoLink [] [] 0 (by decide),
   rss_empty_link_skipped.2.1 "s1" [itemWithLink] [] 0
     (mkArticleItem "s1" itemWithLink 0) (by decide),
   rss_empty_link_skipped.2.2 "s1" [itemNoLink] [] 0⟩

end Novi
